import Mathlib

/-!
Shallow embedding of the JMAP core HTTP front-end of cyrus-imapd
(`imap/http_jmap.c` together with the declarations in `http_jmap.h` and
`jmap_util.h`), and proofs about the embedded operations.

Strings handled character by character in the C source are modelled as
`List Char`; raw message bytes are modelled as `Fin 256`; the backing
store (mailboxes, message records, staging files) is modelled by explicit
oracle parameters recording success or failure of each call into it.
-/

namespace Jmap

/-- A blob / account identifier, handled character by character. -/
abbrev Ident := List Char

/-! ## `data_domain` (http_jmap.c lines 740-757)

`data_domain(p, n)` walks the uploaded bytes: it returns `DOMAIN_BINARY`
as soon as it sees a NUL byte, remembers `DOMAIN_8BIT` once it sees a byte
with the high bit set, and otherwise returns `DOMAIN_7BIT`. -/

inductive Domain where
  | d7bit
  | d8bit
  | binary
deriving DecidableEq, Repr

/-- The loop of `data_domain`, with the accumulator `r` of the C code. -/
def data_domain_loop : List (Fin 256) → Domain → Domain
  | [], r => r
  | b :: p, r =>
      if b = 0 then Domain.binary
      else data_domain_loop p (if 128 ≤ b.val then Domain.d8bit else r)

/-- `data_domain` starts the loop with `r = DOMAIN_7BIT`. -/
def data_domain (p : List (Fin 256)) : Domain :=
  data_domain_loop p Domain.d7bit

/-- The Content-Transfer-Encoding header written by `jmap_upload`
(http_jmap.c lines 868-878): `BINARY` for binary data, `8BIT` for 8-bit
data, and no header at all for 7-bit data. -/
def upload_cte_header (data : List (Fin 256)) : Option (List Char) :=
  match data_domain data with
  | Domain.binary => some "Content-Transfer-Encoding: BINARY".toList
  | Domain.d8bit => some "Content-Transfer-Encoding: 8BIT".toList
  | Domain.d7bit => none

/-! ## `Core/echo` (http_jmap.c lines 1132-1138)

The handler appends the triple `["Core/echo", args, tag]` to the response
array and returns 0.  The argument payload is opaque to the handler, so it
is a type parameter here. -/

/-- One entry of the `methodResponses` array: `[name, payload, client-id]`. -/
structure MethodResponse (α : Type) where
  name : String
  payload : α
  tag : String
deriving DecidableEq

/-- `jmap_core_echo`: appends `["Core/echo", req->args, req->tag]` to
`req->response` and returns 0. -/
def jmap_core_echo {α : Type} (response : List (MethodResponse α))
    (args : α) (tag : String) : List (MethodResponse α) × Int :=
  (response ++ [⟨"Core/echo", args, tag⟩], 0)

/-! ## `strchr`-style first-occurrence split

`jmap_download` and `jmap_upload` both cut their resource path at the
first `'/'` found by `strchr`. -/

/-- Split a character list at the first occurrence of `c`: returns the
part before and the part after, or `none` when `c` does not occur. -/
def break_at (c : Char) : List Char → Option (List Char × List Char)
  | [] => none
  | x :: xs =>
      if x = c then some ([], xs)
      else
        match break_at c xs with
        | none => none
        | some (a, b) => some (x :: a, b)

/-! ## Blob-id codec

`JMAP_BLOBID_SIZE` is 42 (http_jmap.h line 219): the printable id plus its
NUL terminator.  `jmap_set_blobid` is declared in `http_jmap.h` (line 220)
but implemented in `jmap_util.c`, which is not part of this source tree. -/

/-- `JMAP_BLOBID_SIZE` (http_jmap.h line 219): buffer size for a blob id,
terminating NUL included. -/
def JMAP_BLOBID_SIZE : Nat := 42

/-- Lowercase hexadecimal digit for a value below 16. -/
def hex_char (n : Fin 16) : Char :=
  if n.val < 10 then Char.ofNat ('0'.toNat + n.val)
  else Char.ofNat ('a'.toNat + (n.val - 10))

/-- The two hexadecimal digits of one byte, high nibble first. -/
def hex_of_byte (b : Fin 256) : List Char :=
  [hex_char ⟨b.val / 16, by omega⟩, hex_char ⟨b.val % 16, by omega⟩]

/-- Is `c` a lowercase hexadecimal digit? -/
def is_hex_digit (c : Char) : Bool :=
  ('0' ≤ c && c ≤ '9') || ('a' ≤ c && c ≤ 'f')

/-- Modelled from the spec: `jmap_set_blobid` (declared at http_jmap.h
line 220, implementation not in this source tree) renders a blob id as the
sentinel `'G'` followed by the hexadecimal encoding of the content SHA-1
digest (the message GUID, 20 bytes): "Blob ID: `'G' || hex(content-sha1)`". -/
def jmap_set_blobid (guid : List (Fin 256)) : List Char :=
  'G' :: (guid.map hex_of_byte).flatten

/-! ## The download endpoint gate (http_jmap.c lines 473-510)

`jmap_download` receives the resource part of the path (everything after
`/jmap/download/`).  It cuts off the account id at the first `'/'`
(no slash: 404), cuts off the blob id segment at the next `'/'`
(no slash: 400), and rejects with 400 when the segment does not start
with `'G'` or its length is not 41.  Everything beyond — actually finding
the blob — happens only for accepted segments. -/

inductive DownloadGate where
  | notFound
  | badRequest
  | accepted (blobid : Ident) (name : Ident)
deriving DecidableEq, Repr

/-- The validation prefix of `jmap_download`, up to (not including) the
call to `jmap_findblob`. -/
def jmap_download_gate (resource : List Char) : DownloadGate :=
  match break_at '/' resource with
  | none => DownloadGate.notFound
  | some (_userid, after) =>
      match break_at '/' after with
      | none => DownloadGate.badRequest
      | some (blobbase, name) =>
          if blobbase.head? ≠ some 'G' then DownloadGate.badRequest
          else if blobbase.length ≠ 41 then DownloadGate.badRequest
          else DownloadGate.accepted blobbase name

/-! ## Configured limits (http_jmap.c lines 159-194)

`jmap_core_init` reads seven configured integers.  The `_read_opt` macro
logs an error and stores 0 for any value ≤ 0; the two byte-sized limits
are multiplied by 1024 right after being read. -/

/-- The seven configured integers, as returned by `config_getint`. -/
structure JmapConfig where
  maxSizeUpload : Int
  maxConcurrentUpload : Int
  maxSizeRequest : Int
  maxConcurrentRequests : Int
  maxCallsInRequest : Int
  maxObjectsInGet : Int
  maxObjectsInSet : Int

/-- The `limits[]` array of `jmap_settings_t` after `jmap_core_init`. -/
structure JmapLimits where
  maxSizeUpload : Int
  maxConcurrentUpload : Int
  maxSizeRequest : Int
  maxConcurrentRequests : Int
  maxCallsInRequest : Int
  maxObjectsInGet : Int
  maxObjectsInSet : Int
deriving DecidableEq, Repr

/-- The `_read_opt` macro: the stored value, and whether the invalid-value
event was logged via `syslog`. -/
def read_opt (c : Int) : Int × Bool :=
  if c ≤ 0 then (0, true) else (c, false)

/-- The limits stored by `jmap_core_init`: each configured value passes
through `_read_opt`, and `MAX_SIZE_UPLOAD` / `MAX_SIZE_REQUEST` are then
multiplied by 1024. -/
def jmap_core_init (cfg : JmapConfig) : JmapLimits where
  maxSizeUpload := (read_opt cfg.maxSizeUpload).1 * 1024
  maxConcurrentUpload := (read_opt cfg.maxConcurrentUpload).1
  maxSizeRequest := (read_opt cfg.maxSizeRequest).1 * 1024
  maxConcurrentRequests := (read_opt cfg.maxConcurrentRequests).1
  maxCallsInRequest := (read_opt cfg.maxCallsInRequest).1
  maxObjectsInGet := (read_opt cfg.maxObjectsInGet).1
  maxObjectsInSet := (read_opt cfg.maxObjectsInSet).1

/-- The option names logged by `jmap_core_init`, in the order the seven
`_read_opt` expansions run. -/
def jmap_core_init_log (cfg : JmapConfig) : List String :=
  (if (read_opt cfg.maxSizeUpload).2 then ["jmap_max_size_upload"] else []) ++
  (if (read_opt cfg.maxConcurrentUpload).2 then ["jmap_max_concurrent_upload"] else []) ++
  (if (read_opt cfg.maxSizeRequest).2 then ["jmap_max_size_request"] else []) ++
  (if (read_opt cfg.maxConcurrentRequests).2 then ["jmap_max_concurrent_requests"] else []) ++
  (if (read_opt cfg.maxCallsInRequest).2 then ["jmap_max_calls_in_request"] else []) ++
  (if (read_opt cfg.maxObjectsInGet).2 then ["jmap_max_objects_in_get"] else []) ++
  (if (read_opt cfg.maxObjectsInSet).2 then ["jmap_max_objects_in_set"] else [])

/-! ## The upload endpoint (http_jmap.c lines 760-965)

`jmap_upload` reads and decodes the request body, rejects bodies larger
than the effective `maxSizeUpload`, requires the resource to be exactly
`{accountId}/`, opens (creating if needed) the upload collection, stages
an RFC 5322 message wrapping the body, appends it, and answers
`201 Created` with the response object built at lines 930-948.

Calls into the backing store are oracles in `UploadEnv`; effects on the
store are tracked in `UploadEffects` so that "nothing was staged" is a
statement of the model.  `maxSizeUpload` is a `Nat` because the C code
compares against `(size_t) limits[MAX_SIZE_UPLOAD]` and `jmap_core_init`
never stores a negative limit. -/

/-- Environment of one upload request: the effective settings, the
request headers the handler reads, and oracles for each call into the
backing store. -/
structure UploadEnv where
  /-- `http_read_req_body` succeeded. -/
  readOk : Bool
  /-- Effective `limits[MAX_SIZE_UPLOAD]` (bytes, already scaled). -/
  maxSizeUpload : Nat
  /-- `create_upload_collection(accountid, &mailbox)` succeeded. -/
  collOk : Ident → Bool
  /-- `append_newstage` returned a stage file. -/
  stageOk : Bool
  /-- `append_setup_mbox` succeeded. -/
  appendSetupOk : Bool
  /-- `append_fromstage` succeeded. -/
  appendOk : Bool
  /-- `append_commit` succeeded. -/
  commitOk : Bool
  /-- `body->content_guid` of the staged message (its SHA-1, 20 bytes). -/
  contentGuid : List (Fin 256)
  /-- The request `Content-Type` header, if present. -/
  contentType : Option Ident
  /-- `charset_decode_mimeheader(type, CHARSET_SNIPPET)`. -/
  normalise : Ident → Ident
  /-- `time_to_rfc3339`. -/
  rfc3339 : Int → Ident
  /-- `time(NULL)` at the start of the request, in seconds. -/
  now : Int

/-- Which backing-store side effects the handler performed. -/
structure UploadEffects where
  /-- `create_upload_collection` was called. -/
  openedCollection : Bool
  /-- `append_newstage` was called (a message was staged). -/
  staged : Bool
  /-- `append_fromstage` + `append_commit` both succeeded (a blob now
  exists in the store). -/
  blobCreated : Bool
deriving DecidableEq, Repr

/-- No side effect on the backing store. -/
def noUploadEffects : UploadEffects := ⟨false, false, false⟩

/-- The JSON body of a `201 Created` upload response
(http_jmap.c lines 930-948). -/
structure UploadResponse where
  accountId : Ident
  blobId : Ident
  size : Nat
  ty : Ident
  expires : Ident
deriving DecidableEq

/-- Outcome of `jmap_upload`, by HTTP status. -/
inductive UploadResult where
  /-- `http_read_req_body` failed; its error status is returned. -/
  | readErr
  /-- `413 Payload Too Large`. -/
  | tooLarge
  /-- `404 Not Found`. -/
  | notFound
  /-- `500 Internal Server Error`. -/
  | serverErr
  /-- `201 Created` with the response body. -/
  | created (resp : UploadResponse)
deriving DecidableEq

/-- The default `Content-Type` of an upload (http_jmap.c line 862). -/
def app_octet_stream : Ident := "application/octet-stream".toList

/-- Lines 793-800: the resource must be `{accountId}/` — a first `'/'`
must exist and must be the last character. -/
def upload_parse_resource (resource : List Char) : Option Ident :=
  match break_at '/' resource with
  | none => none
  | some (accountid, rest) => if rest = [] then some accountid else none

/-- `jmap_upload`, as a function of the environment, the decoded body
bytes, and the resource part of the request path. -/
def jmap_upload (env : UploadEnv) (data : List (Fin 256))
    (resource : List Char) : UploadResult × UploadEffects :=
  if env.readOk = false then (UploadResult.readErr, noUploadEffects)
  else if env.maxSizeUpload < data.length then (UploadResult.tooLarge, noUploadEffects)
  else
    match upload_parse_resource resource with
    | none => (UploadResult.notFound, noUploadEffects)
    | some accountid =>
        if env.collOk accountid = false then
          (UploadResult.notFound, ⟨true, false, false⟩)
        else if env.stageOk = false then
          (UploadResult.serverErr, ⟨true, false, false⟩)
        else if env.appendSetupOk = false then
          (UploadResult.serverErr, ⟨true, true, false⟩)
        else if env.appendOk = false then
          (UploadResult.serverErr, ⟨true, true, false⟩)
        else if env.commitOk = false then
          (UploadResult.serverErr, ⟨true, true, false⟩)
        else
          (UploadResult.created
            { accountId := accountid
              blobId := jmap_set_blobid env.contentGuid
              size := data.length
              ty := env.normalise (env.contentType.getD app_octet_stream)
              expires := env.rfc3339 (env.now + 86400) },
            ⟨true, true, true⟩)

/-! ## `Blob/get` (http_jmap.c lines 1328-1478)

After parsing, the handler walks `get.ids`; for each id whose first
character is `'G'` it calls `conversations_guid_foreach` on the rest of
the id and collects the matching message records, grouped by mailbox.  It
then opens each mailbox and, for every record it can read, inserts (at
most once per id) an object into the `found` JSON object keyed by the id.
All values of `found` become `get.list`; every requested id without a key
in `found` is appended to `get.not_found`.  Whether the whole backing
chain yields at least one readable record for an id is the oracle
`resolves`. -/

/-- Does the backing chain of `Blob/get` (guid lookup, mailbox rights and
open, message record read) report at least one record for this id?  The
id is passed as received; the code looks up `blob_id + 1`. -/
abbrev BlobResolver := Ident → Bool

/-- Lines 1346-1356 and onwards: the keys of the `found` object — the
requested ids that start with `'G'` and resolve, one key per distinct
id. -/
def blob_get_found (resolves : BlobResolver) (ids : List Ident) : List Ident :=
  (ids.filter (fun i => i.head? = some 'G' && resolves i)).dedup

/-- Lines 1346-1350: the ids handed to `conversations_guid_foreach` — the
requested ids whose first character is `'G'`. -/
def blob_get_lookups (ids : List Ident) : List Ident :=
  ids.filter (fun i => i.head? = some 'G')

/-- Lines 1461-1467: every requested id without a key in `found` is
appended to `not_found`, in request order. -/
def blob_get_notFound (resolves : BlobResolver) (ids : List Ident) : List Ident :=
  ids.filter (fun i => ¬ (i ∈ blob_get_found resolves ids))

/-- The `Blob/get` response fields of `struct jmap_get` the handler
fills: one object in `list` per key of `found`, and `not_found`. -/
structure BlobGetReply where
  list : List Ident
  notFound : List Ident
deriving DecidableEq

/-- Outcome of a `Blob/get` call: a method-level error injected by
`jmap_error` on a parse failure, or a normal reply via `jmap_ok`. -/
inductive BlobGetResult where
  | methodError
  | ok (rep : BlobGetReply)
deriving DecidableEq

/-- `jmap_blob_get`: on a parse error the handler replies with
`jmap_error` and returns; otherwise it always reaches `jmap_ok` with the
assembled reply. -/
def jmap_blob_get (parseErr : Bool) (resolves : BlobResolver)
    (ids : List Ident) : BlobGetResult :=
  if parseErr then BlobGetResult.methodError
  else BlobGetResult.ok
    { list := blob_get_found resolves ids
      notFound := blob_get_notFound resolves ids }

/-! ## `Blob/copy` (http_jmap.c lines 1140-1286)

`jmap_blob_copy` parses the call, opens the destination upload
collection, and then runs `jmap_copyblob` on each id of `copy.create` in
order.  `IMAP_NOTFOUND` and `IMAP_PERMISSION_DENIED` results put the id
into `notCreated` with type `blobNotFound`; any other nonzero result
jumps to `cleanup`, skipping `jmap_ok` entirely; success puts
`id → id` into `created`.  When the destination collection cannot be
opened with `IMAP_PERMISSION_DENIED`, every id goes to `notCreated` with
type `toAccountNotFound` and a normal reply is still emitted. -/

/-- Classified result of `jmap_copyblob` for one blob id. -/
inductive CopyOutcome where
  /-- Copied and committed. -/
  | ok
  /-- `IMAP_NOTFOUND` (blob not found by `jmap_findblob`). -/
  | notFound
  /-- `IMAP_PERMISSION_DENIED` (caller may not read the source blob). -/
  | permDenied
  /-- Any other nonzero error (I/O, internal, ...). -/
  | otherErr
deriving DecidableEq

/-- Result of `create_upload_collection` for the destination account. -/
inductive CollOutcome where
  | ok
  /-- `IMAP_PERMISSION_DENIED`. -/
  | permDenied
  /-- Any other nonzero error. -/
  | otherErr
deriving DecidableEq

/-- The `created` / `notCreated` maps of a `Blob/copy` reply, as
association lists in insertion order. -/
structure BlobCopyReply where
  created : List (Ident × Ident)
  notCreated : List (Ident × String)
deriving DecidableEq

/-- Outcome of a `Blob/copy` call: a method-level error injected by
`jmap_error` on a parse failure, a normal reply via `jmap_ok`, or an
abort through `cleanup` with a nonzero return (no reply emitted). -/
inductive BlobCopyResult where
  | methodError
  | reply (rep : BlobCopyReply)
  | abort
deriving DecidableEq

/-- The `json_array_foreach` loop over `copy.create`
(http_jmap.c lines 1264-1274). -/
def blob_copy_loop (copyblob : Ident → CopyOutcome) :
    List Ident → BlobCopyReply → BlobCopyResult
  | [], acc => BlobCopyResult.reply acc
  | id :: rest, acc =>
      match copyblob id with
      | CopyOutcome.notFound =>
          blob_copy_loop copyblob rest
            { acc with notCreated := acc.notCreated ++ [(id, "blobNotFound")] }
      | CopyOutcome.permDenied =>
          blob_copy_loop copyblob rest
            { acc with notCreated := acc.notCreated ++ [(id, "blobNotFound")] }
      | CopyOutcome.otherErr => BlobCopyResult.abort
      | CopyOutcome.ok =>
          blob_copy_loop copyblob rest
            { acc with created := acc.created ++ [(id, id)] }

/-- `jmap_blob_copy`. -/
def jmap_blob_copy (parseErr : Bool) (coll : CollOutcome)
    (copyblob : Ident → CopyOutcome) (create : List Ident) : BlobCopyResult :=
  if parseErr then BlobCopyResult.methodError
  else
    match coll with
    | CollOutcome.permDenied =>
        BlobCopyResult.reply
          { created := []
            notCreated := create.map (fun i => (i, "toAccountNotFound")) }
    | CollOutcome.otherErr => BlobCopyResult.abort
    | CollOutcome.ok => blob_copy_loop copyblob create ⟨[], []⟩

/-! ## Concrete sample values used by witnesses -/

/-- A small concrete upload environment where every backing-store call
succeeds. -/
def sampleEnv : UploadEnv where
  readOk := true
  maxSizeUpload := 10
  collOk := fun _ => true
  stageOk := true
  appendSetupOk := true
  appendOk := true
  commitOk := true
  contentGuid := List.replicate 20 0
  contentType := none
  normalise := fun t => t
  rfc3339 := fun _ => []
  now := 0

/-- A concrete 20-byte GUID. -/
def sampleGuid : List (Fin 256) := List.replicate 20 0

/-- A concrete well-shaped blob id: `'G'` followed by 40 hex digits. -/
def sampleBlob : List Char := 'G' :: List.replicate 40 '0'

/-! # Helper lemmas -/

theorem break_at_eq_none {c : Char} {l : List Char} :
    break_at c l = none ↔ c ∉ l := by
  induction l with
  | nil => simp [break_at]
  | cons x xs ih =>
      by_cases hx : x = c
      · subst hx
        simp [break_at]
      · cases hxs : break_at c xs with
        | none =>
            simp only [break_at, if_neg hx, hxs]
            simp [List.mem_cons, Ne.symm hx, ← ih, hxs]
        | some ab =>
            simp only [break_at, if_neg hx, hxs]
            constructor
            · intro h; exact absurd h (by simp)
            · intro h
              exact absurd (ih.mpr (by simp [List.mem_cons] at h; tauto)) (by simp [hxs])

theorem break_at_append {c : Char} {a : List Char} (r : List Char)
    (ha : c ∉ a) : break_at c (a ++ c :: r) = some (a, r) := by
  induction a with
  | nil => simp [break_at]
  | cons x xs ih =>
      have hx : x ≠ c := fun h => ha (h ▸ List.mem_cons_self x xs)
      have hxs : c ∉ xs := fun h => ha (List.mem_cons_of_mem x h)
      simp [break_at, if_neg hx, ih hxs]

theorem break_at_some_spec {c : Char} {l a b : List Char}
    (h : break_at c l = some (a, b)) : l = a ++ c :: b ∧ c ∉ a := by
  induction l generalizing a with
  | nil => simp [break_at] at h
  | cons x xs ih =>
      by_cases hx : x = c
      · subst hx
        simp only [break_at, if_pos rfl, Option.some_inj] at h
        obtain ⟨ha, hb⟩ : a = [] ∧ xs = b := by
          constructor <;> simp [Prod.ext_iff] at h <;> tauto
        subst ha; subst hb; simp
      · cases hxs : break_at c xs with
        | none => simp [break_at, if_neg hx, hxs] at h
        | some ab =>
            obtain ⟨a', b'⟩ := ab
            simp only [break_at, if_neg hx, hxs, Option.some_inj] at h
            obtain ⟨ha, hb⟩ : x :: a' = a ∧ b' = b := by
              simp [Prod.ext_iff] at h; tauto
            subst hb
            obtain ⟨hl, hc⟩ := ih hxs
            subst ha; subst hl
            refine ⟨by simp, ?_⟩
            intro hmem
            rcases List.mem_cons.mp hmem with h1 | h1
            · exact hx h1.symm
            · exact hc h1

theorem upload_parse_resource_some_spec {resource : List Char} {a : Ident}
    (h : upload_parse_resource resource = some a) :
    resource = a ++ ['/'] ∧ '/' ∉ a := by
  unfold upload_parse_resource at h
  cases hb : break_at '/' resource with
  | none => rw [hb] at h; exact absurd h (by simp)
  | some ab =>
      obtain ⟨x, rest⟩ := ab
      rw [hb] at h
      by_cases hr : rest = []
      · subst hr
        simp only [if_pos rfl] at h
        obtain rfl := Option.some_inj.mp h
        exact break_at_some_spec hb
      · simp [if_neg hr] at h

theorem data_domain_loop_spec (p : List (Fin 256)) (r : Domain) :
    data_domain_loop p r =
      if (0 : Fin 256) ∈ p then Domain.binary
      else if ∃ b ∈ p, 128 ≤ b.val then Domain.d8bit
      else r := by
  induction p generalizing r with
  | nil => simp [data_domain_loop]
  | cons b p ih =>
      by_cases hb : b = (0 : Fin 256)
      · subst hb
        simp [data_domain_loop]
      · rw [data_domain_loop, if_neg hb, ih]
        have hb' : ¬ (0 : Fin 256) = b := fun h => hb h.symm
        by_cases h0 : (0 : Fin 256) ∈ p
        · simp [h0, hb']
        · by_cases hhi : 128 ≤ b.val
          · simp [h0, hb', hhi]
          · by_cases hp : ∃ x ∈ p, 128 ≤ x.val
            · simp [h0, hb', hhi, hp]
            · simp [h0, hb', hhi, hp]

/-! # Claim theorems -/

/-- C7: `Core/echo` appends exactly one response entry
`["Core/echo", args, tag]` — the payload is the request arguments
unchanged and the client-id is echoed verbatim — and returns 0. -/
theorem core_echo_identity {α : Type} (response : List (MethodResponse α))
    (args : α) (tag : String) :
    (jmap_core_echo response args tag).1 =
      response ++ [⟨"Core/echo", args, tag⟩] ∧
    (jmap_core_echo response args tag).1.length = response.length + 1 ∧
    (jmap_core_echo response args tag).2 = 0 :=
  ⟨rfl, by simp [jmap_core_echo], rfl⟩

/-- C4: for each of the seven configured limits, a configured value ≤ 0
is logged and stored as 0; the byte-sized limits are only multiplied by
1024 afterwards, so the effective stored limit is 0 as well. -/
theorem core_init_nonpos (cfg : JmapConfig) :
    (cfg.maxSizeUpload ≤ 0 →
      (jmap_core_init cfg).maxSizeUpload = 0 ∧
      "jmap_max_size_upload" ∈ jmap_core_init_log cfg) ∧
    (cfg.maxConcurrentUpload ≤ 0 →
      (jmap_core_init cfg).maxConcurrentUpload = 0 ∧
      "jmap_max_concurrent_upload" ∈ jmap_core_init_log cfg) ∧
    (cfg.maxSizeRequest ≤ 0 →
      (jmap_core_init cfg).maxSizeRequest = 0 ∧
      "jmap_max_size_request" ∈ jmap_core_init_log cfg) ∧
    (cfg.maxConcurrentRequests ≤ 0 →
      (jmap_core_init cfg).maxConcurrentRequests = 0 ∧
      "jmap_max_concurrent_requests" ∈ jmap_core_init_log cfg) ∧
    (cfg.maxCallsInRequest ≤ 0 →
      (jmap_core_init cfg).maxCallsInRequest = 0 ∧
      "jmap_max_calls_in_request" ∈ jmap_core_init_log cfg) ∧
    (cfg.maxObjectsInGet ≤ 0 →
      (jmap_core_init cfg).maxObjectsInGet = 0 ∧
      "jmap_max_objects_in_get" ∈ jmap_core_init_log cfg) ∧
    (cfg.maxObjectsInSet ≤ 0 →
      (jmap_core_init cfg).maxObjectsInSet = 0 ∧
      "jmap_max_objects_in_set" ∈ jmap_core_init_log cfg) := by
  refine ⟨fun h => ⟨?_, ?_⟩, fun h => ⟨?_, ?_⟩, fun h => ⟨?_, ?_⟩, fun h => ⟨?_, ?_⟩,
    fun h => ⟨?_, ?_⟩, fun h => ⟨?_, ?_⟩, fun h => ⟨?_, ?_⟩⟩ <;>
    simp [jmap_core_init, jmap_core_init_log, read_opt, h]

/-- C4 witness: with every configured value −1, all seven limits are
stored as 0 and all seven events are logged. -/
theorem core_init_nonpos_witness :
    ((jmap_core_init ⟨-1, -1, -1, -1, -1, -1, -1⟩).maxSizeUpload = 0 ∧
      "jmap_max_size_upload" ∈ jmap_core_init_log ⟨-1, -1, -1, -1, -1, -1, -1⟩) ∧
    ((jmap_core_init ⟨-1, -1, -1, -1, -1, -1, -1⟩).maxConcurrentUpload = 0 ∧
      "jmap_max_concurrent_upload" ∈ jmap_core_init_log ⟨-1, -1, -1, -1, -1, -1, -1⟩) ∧
    ((jmap_core_init ⟨-1, -1, -1, -1, -1, -1, -1⟩).maxSizeRequest = 0 ∧
      "jmap_max_size_request" ∈ jmap_core_init_log ⟨-1, -1, -1, -1, -1, -1, -1⟩) ∧
    ((jmap_core_init ⟨-1, -1, -1, -1, -1, -1, -1⟩).maxConcurrentRequests = 0 ∧
      "jmap_max_concurrent_requests" ∈ jmap_core_init_log ⟨-1, -1, -1, -1, -1, -1, -1⟩) ∧
    ((jmap_core_init ⟨-1, -1, -1, -1, -1, -1, -1⟩).maxCallsInRequest = 0 ∧
      "jmap_max_calls_in_request" ∈ jmap_core_init_log ⟨-1, -1, -1, -1, -1, -1, -1⟩) ∧
    ((jmap_core_init ⟨-1, -1, -1, -1, -1, -1, -1⟩).maxObjectsInGet = 0 ∧
      "jmap_max_objects_in_get" ∈ jmap_core_init_log ⟨-1, -1, -1, -1, -1, -1, -1⟩) ∧
    ((jmap_core_init ⟨-1, -1, -1, -1, -1, -1, -1⟩).maxObjectsInSet = 0 ∧
      "jmap_max_objects_in_set" ∈ jmap_core_init_log ⟨-1, -1, -1, -1, -1, -1, -1⟩) := by
  have h := core_init_nonpos ⟨-1, -1, -1, -1, -1, -1, -1⟩
  exact ⟨h.1 (by norm_num), h.2.1 (by norm_num), h.2.2.1 (by norm_num),
    h.2.2.2.1 (by norm_num), h.2.2.2.2.1 (by norm_num),
    h.2.2.2.2.2.1 (by norm_num), h.2.2.2.2.2.2 (by norm_num)⟩

/-- C5: an upload whose decoded body strictly exceeds the effective
`maxSizeUpload` is rejected with `413 Payload Too Large` with no side
effect on the backing store: the upload collection is not opened, nothing
is staged, no blob is created. -/
theorem upload_oversize_rejected (env : UploadEnv) (data : List (Fin 256))
    (resource : List Char) (hread : env.readOk = true)
    (hsize : env.maxSizeUpload < data.length) :
    jmap_upload env data resource = (UploadResult.tooLarge, noUploadEffects) := by
  simp [jmap_upload, hread, hsize]

/-- C5 witness: an 11-byte body against a 10-byte limit. -/
theorem upload_oversize_rejected_witness :
    sampleEnv.readOk = true ∧
    sampleEnv.maxSizeUpload < (List.replicate 11 (0 : Fin 256)).length ∧
    jmap_upload sampleEnv (List.replicate 11 0) ['x'] =
      (UploadResult.tooLarge, noUploadEffects) :=
  ⟨rfl, by decide,
    upload_oversize_rejected sampleEnv (List.replicate 11 0) ['x'] rfl (by decide)⟩

/-- C10 counterexample: a POST whose resource part is malformed (`"x"`,
no slash at all) but whose body also exceeds the size limit is rejected
with `413 Payload Too Large`, not `404 Not Found` — the size gate runs
before the resource-shape gate. -/
theorem upload_bad_resource_counterexample :
    break_at '/' ['x'] = none ∧
    jmap_upload sampleEnv (List.replicate 11 0) ['x'] =
      (UploadResult.tooLarge, noUploadEffects) ∧
    UploadResult.tooLarge ≠ UploadResult.notFound := by
  refine ⟨by decide, ?_, by decide⟩
  decide

/-- C10 amended: once the body has been read and has passed the size
gate, a POST whose resource part is not exactly an account id followed by
a single trailing `'/'` fails with `404 Not Found`, with no side effect
on the backing store (nothing staged or appended). -/
theorem upload_bad_resource_404 (env : UploadEnv) (data : List (Fin 256))
    (resource : List Char) (hread : env.readOk = true)
    (hsize : data.length ≤ env.maxSizeUpload)
    (hshape : ∀ a : List Char, ¬ (resource = a ++ ['/'] ∧ '/' ∉ a)) :
    jmap_upload env data resource = (UploadResult.notFound, noUploadEffects) := by
  have hparse : upload_parse_resource resource = none := by
    cases hp : upload_parse_resource resource with
    | none => rfl
    | some a => exact absurd (upload_parse_resource_some_spec hp) (hshape a)
  simp [jmap_upload, hread, Nat.not_lt.mpr hsize, hparse]

/-- C10 amended witness: an in-limit body posted to resource `"x"`. -/
theorem upload_bad_resource_404_witness :
    jmap_upload sampleEnv [] ['x'] = (UploadResult.notFound, noUploadEffects) := by
  refine upload_bad_resource_404 sampleEnv [] ['x'] rfl (by decide) ?_
  intro a h
  obtain ⟨heq, -⟩ := h
  have hl := congrArg List.length heq
  simp at hl
  subst hl
  simp at heq

/-- C6: every upload that reaches `201 Created` answers with the target
account id from the path, the blob id derived from the staged message's
content GUID, the exact uploaded byte count as `size`, the normalised
request `Content-Type` (defaulting to `application/octet-stream`), and
the RFC 3339 rendering of the upload time plus 86400 seconds as
`expires`; a blob was created in the store. -/
theorem upload_created_response (env : UploadEnv) (data : List (Fin 256))
    (resource : List Char) (resp : UploadResponse) (eff : UploadEffects)
    (h : jmap_upload env data resource = (UploadResult.created resp, eff)) :
    resp.size = data.length ∧
    resp.blobId = jmap_set_blobid env.contentGuid ∧
    resp.ty = env.normalise (env.contentType.getD app_octet_stream) ∧
    resp.expires = env.rfc3339 (env.now + 86400) ∧
    upload_parse_resource resource = some resp.accountId ∧
    eff.blobCreated = true := by
  unfold jmap_upload at h
  split at h
  · simp at h
  · split at h
    · simp at h
    · split at h
      · simp at h
      · next accountid heq =>
          split at h
          · simp at h
          · split at h
            · simp at h
            · split at h
              · simp at h
              · split at h
                · simp at h
                · split at h
                  · simp at h
                  · obtain ⟨h1, h2⟩ := Prod.mk.injEq .. ▸ h
                    obtain rfl := (UploadResult.created.injEq .. ▸ h1)
                    subst h2
                    exact ⟨rfl, rfl, rfl, rfl, heq, rfl⟩

/-- C6 witness: a successful empty-body upload to account `a`. -/
theorem upload_created_response_witness :
    (UploadResponse.mk ['a'] (jmap_set_blobid sampleGuid) 0 app_octet_stream []).size = 0 ∧
    (UploadResponse.mk ['a'] (jmap_set_blobid sampleGuid) 0 app_octet_stream []).blobId =
      jmap_set_blobid sampleEnv.contentGuid ∧
    (UploadResponse.mk ['a'] (jmap_set_blobid sampleGuid) 0 app_octet_stream []).ty =
      sampleEnv.normalise (sampleEnv.contentType.getD app_octet_stream) ∧
    (UploadResponse.mk ['a'] (jmap_set_blobid sampleGuid) 0 app_octet_stream []).expires =
      sampleEnv.rfc3339 (sampleEnv.now + 86400) ∧
    upload_parse_resource ['a', '/'] =
      some (UploadResponse.mk ['a'] (jmap_set_blobid sampleGuid) 0 app_octet_stream []).accountId ∧
    (UploadEffects.mk true true true).blobCreated = true :=
  upload_created_response sampleEnv [] ['a', '/']
    (UploadResponse.mk ['a'] (jmap_set_blobid sampleGuid) 0 app_octet_stream [])
    (UploadEffects.mk true true true) (by decide)

/-- C8: the staged message carries `Content-Transfer-Encoding: BINARY`
iff the body contains a zero byte; otherwise it carries
`Content-Transfer-Encoding: 8BIT` iff the body contains a byte with the
high bit set; otherwise (pure 7-bit data) no such header is written. -/
theorem upload_cte_spec (data : List (Fin 256)) :
    (upload_cte_header data = some "Content-Transfer-Encoding: BINARY".toList ↔
      (0 : Fin 256) ∈ data) ∧
    ((0 : Fin 256) ∉ data →
      (upload_cte_header data = some "Content-Transfer-Encoding: 8BIT".toList ↔
        ∃ b ∈ data, 128 ≤ b.val)) ∧
    ((0 : Fin 256) ∉ data → (∀ b ∈ data, b.val < 128) →
      upload_cte_header data = none) := by
  have hd : data_domain data =
      if (0 : Fin 256) ∈ data then Domain.binary
      else if ∃ b ∈ data, 128 ≤ b.val then Domain.d8bit
      else Domain.d7bit := data_domain_loop_spec data Domain.d7bit
  refine ⟨?_, fun h0 => ?_, fun h0 h7 => ?_⟩
  · by_cases h0 : (0 : Fin 256) ∈ data
    · simp only [upload_cte_header, hd, if_pos h0]
      simp [h0]
    · by_cases hhi : ∃ b ∈ data, 128 ≤ b.val
      · simp only [upload_cte_header, hd, if_neg h0, if_pos hhi]
        constructor
        · intro h
          exact absurd (Option.some_inj.mp h) (by decide)
        · intro h
          exact absurd h h0
      · simp only [upload_cte_header, hd, if_neg h0, if_neg hhi]
        simp [h0]
  · by_cases hhi : ∃ b ∈ data, 128 ≤ b.val
    · simp only [upload_cte_header, hd, if_neg h0, if_pos hhi]
      simp [hhi]
    · simp only [upload_cte_header, hd, if_neg h0, if_neg hhi]
      simp [hhi]
  · have hhi : ¬ ∃ b ∈ data, 128 ≤ b.val := by
      rintro ⟨b, hb, hge⟩
      exact absurd hge (Nat.not_le.mpr (h7 b hb))
    simp only [upload_cte_header, hd, if_neg h0, if_neg hhi]

set_option maxRecDepth 4096 in
/-- C8 witness: a body holding the single byte 200 gets the `8BIT`
header; a body holding the single byte 5 gets no header. -/
theorem upload_cte_spec_witness :
    (upload_cte_header [(200 : Fin 256)] =
        some "Content-Transfer-Encoding: 8BIT".toList ↔
      ∃ b ∈ [(200 : Fin 256)], 128 ≤ b.val) ∧
    upload_cte_header [(5 : Fin 256)] = none :=
  ⟨(upload_cte_spec [(200 : Fin 256)]).2.1 (by decide),
   (upload_cte_spec [(5 : Fin 256)]).2.2 (by decide) (by decide)⟩

theorem hex_char_is_hex : ∀ n : Fin 16, is_hex_digit (hex_char n) = true := by
  decide

theorem jmap_set_blobid_length (guid : List (Fin 256)) :
    (jmap_set_blobid guid).length = 2 * guid.length + 1 := by
  unfold jmap_set_blobid
  induction guid with
  | nil => rfl
  | cons b g ih =>
      simp only [List.map_cons, List.flatten_cons, List.length_cons] at *
      simp only [List.length_append, hex_of_byte, List.length_cons, List.length_nil] at *
      omega

theorem jmap_set_blobid_tail_hex (guid : List (Fin 256)) :
    (jmap_set_blobid guid).tail.all is_hex_digit = true := by
  rw [List.all_eq_true]
  intro c hc
  simp only [jmap_set_blobid, List.tail_cons, List.mem_flatten, List.mem_map] at hc
  obtain ⟨l, ⟨b, -, rfl⟩, hcl⟩ := hc
  simp only [hex_of_byte, List.mem_cons, List.not_mem_nil, or_false] at hcl
  rcases hcl with rfl | rfl
  · exact hex_char_is_hex _
  · exact hex_char_is_hex _

theorem download_gate_two_slashes {u b : List Char} (n : List Char)
    (hu : '/' ∉ u) (hb : '/' ∉ b) :
    jmap_download_gate (u ++ '/' :: (b ++ '/' :: n)) =
      (if b.head? ≠ some 'G' then DownloadGate.badRequest
       else if b.length ≠ 41 then DownloadGate.badRequest
       else DownloadGate.accepted b n) := by
  simp only [jmap_download_gate, break_at_append _ hu, break_at_append _ hb]

/-- C1 counterexample: the claim's blob-id shape — the sentinel `'G'`
followed by 41 hexadecimal characters — is rejected by the download
endpoint with `400 Bad Request`, because the code accepts only segments
of total length 41 (`'G'` plus 40 hex digits of the SHA-1); conversely a
41-character segment `'G'` followed by 40 non-hex characters is
accepted. -/
theorem download_blobid_shape_counterexample :
    (('G' :: List.replicate 41 '0').length = 42 ∧
      (List.replicate 41 '0').all is_hex_digit = true ∧
      jmap_download_gate
        ('u' :: '/' :: (('G' :: List.replicate 41 '0') ++ '/' :: ['n'])) =
        DownloadGate.badRequest) ∧
    (is_hex_digit 'z' = false ∧
      jmap_download_gate
        ('u' :: '/' :: (('G' :: List.replicate 40 'z') ++ '/' :: ['n'])) =
        DownloadGate.accepted ('G' :: List.replicate 40 'z') ['n']) := by
  refine ⟨⟨by decide, by decide, ?_⟩, ⟨by decide, ?_⟩⟩ <;> decide

/-- C1 amended: a blob id is the sentinel `'G'` followed by the 40
hexadecimal characters of the content SHA-1 digest — 41 printable
characters, 42 with the terminator (`JMAP_BLOBID_SIZE`) — and the
download endpoint accepts a blobId path segment exactly when it begins
with `'G'` and is exactly 41 characters long (the hexadecimal content is
not verified), rejecting it with `400 Bad Request` otherwise. -/
theorem download_blobid_shape (guid : List (Fin 256)) (u b n : List Char)
    (hguid : guid.length = 20) (hu : '/' ∉ u) (hb : '/' ∉ b) :
    ((jmap_set_blobid guid).head? = some 'G' ∧
      (jmap_set_blobid guid).length = 41 ∧
      (jmap_set_blobid guid).length + 1 = JMAP_BLOBID_SIZE ∧
      (jmap_set_blobid guid).tail.length = 40 ∧
      (jmap_set_blobid guid).tail.all is_hex_digit = true) ∧
    ((jmap_download_gate (u ++ '/' :: (b ++ '/' :: n)) =
        DownloadGate.accepted b n ↔
      (b.head? = some 'G' ∧ b.length = 41)) ∧
     (jmap_download_gate (u ++ '/' :: (b ++ '/' :: n)) =
        DownloadGate.accepted b n ∨
      jmap_download_gate (u ++ '/' :: (b ++ '/' :: n)) =
        DownloadGate.badRequest)) := by
  have hlen := jmap_set_blobid_length guid
  rw [hguid] at hlen
  have hgate := download_gate_two_slashes n hu hb
  constructor
  · refine ⟨rfl, hlen, by rw [hlen]; rfl, ?_, jmap_set_blobid_tail_hex guid⟩
    have : (jmap_set_blobid guid).tail.length = (jmap_set_blobid guid).length - 1 :=
      List.length_tail _
    omega
  · rw [hgate]
    by_cases hG : b.head? = some 'G'
    · by_cases h41 : b.length = 41
      · simp [hG, h41]
      · simp [hG, h41]
    · simp [hG]

set_option maxRecDepth 8192 in
/-- C1 amended witness: the all-zero 20-byte GUID and the path
`u/G000…0/n` with a 41-character segment. -/
theorem download_blobid_shape_witness :
    ((jmap_set_blobid sampleGuid).head? = some 'G' ∧
      (jmap_set_blobid sampleGuid).length = 41 ∧
      (jmap_set_blobid sampleGuid).length + 1 = JMAP_BLOBID_SIZE ∧
      (jmap_set_blobid sampleGuid).tail.length = 40 ∧
      (jmap_set_blobid sampleGuid).tail.all is_hex_digit = true) ∧
    ((jmap_download_gate (['u'] ++ '/' :: (sampleBlob ++ '/' :: ['n'])) =
        DownloadGate.accepted sampleBlob ['n'] ↔
      (sampleBlob.head? = some 'G' ∧ sampleBlob.length = 41)) ∧
     (jmap_download_gate (['u'] ++ '/' :: (sampleBlob ++ '/' :: ['n'])) =
        DownloadGate.accepted sampleBlob ['n'] ∨
      jmap_download_gate (['u'] ++ '/' :: (sampleBlob ++ '/' :: ['n'])) =
        DownloadGate.badRequest)) :=
  download_blobid_shape sampleGuid ['u'] sampleBlob ['n']
    (by decide) (by decide) (by decide)

theorem blob_get_found_mem {resolves : BlobResolver} {ids : List Ident}
    {i : Ident} :
    i ∈ blob_get_found resolves ids ↔
      i ∈ ids ∧ i.head? = some 'G' ∧ resolves i = true := by
  simp [blob_get_found, List.mem_dedup, List.mem_filter, and_assoc]

theorem blob_get_notFound_mem {resolves : BlobResolver} {ids : List Ident}
    {i : Ident} :
    i ∈ blob_get_notFound resolves ids ↔
      i ∈ ids ∧ ¬(i.head? = some 'G' ∧ resolves i = true) := by
  simp only [blob_get_notFound, List.mem_filter, decide_not, Bool.not_eq_eq_eq_not,
    Bool.not_true, decide_eq_false_iff_not]
  constructor
  · rintro ⟨hi, hnot⟩
    exact ⟨hi, fun hc => hnot (blob_get_found_mem.mpr ⟨hi, hc⟩)⟩
  · rintro ⟨hi, hnot⟩
    exact ⟨hi, fun hc => hnot (blob_get_found_mem.mp hc).2⟩

/-- C3: `Blob/get` replies normally; `notFound` contains exactly the
requested ids that did not resolve to a stored blob, each resolved
requested id contributes exactly one object to `list` (the keys of the
`found` object are distinct), and every requested id ends up in exactly
one of `list` and `notFound`. -/
theorem blob_get_partition (resolves : BlobResolver) (ids : List Ident) :
    jmap_blob_get false resolves ids =
      BlobGetResult.ok
        ⟨blob_get_found resolves ids, blob_get_notFound resolves ids⟩ ∧
    (∀ i, i ∈ blob_get_notFound resolves ids ↔
      i ∈ ids ∧ ¬(i.head? = some 'G' ∧ resolves i = true)) ∧
    (∀ i, i ∈ blob_get_found resolves ids ↔
      i ∈ ids ∧ (i.head? = some 'G' ∧ resolves i = true)) ∧
    (blob_get_found resolves ids).Nodup ∧
    (∀ i ∈ ids, (i ∈ blob_get_found resolves ids ↔
      i ∉ blob_get_notFound resolves ids)) := by
  refine ⟨rfl, fun i => blob_get_notFound_mem, fun i => blob_get_found_mem,
    List.nodup_dedup _, fun i hi => ?_⟩
  rw [blob_get_found_mem, blob_get_notFound_mem]
  constructor
  · rintro ⟨-, hres⟩ ⟨-, hnot⟩
    exact hnot hres
  · intro h
    refine ⟨hi, ?_⟩
    by_contra hres
    exact h ⟨hi, hres⟩

/-- C3 witness: of the two requested ids `"G1"` and `"x"` against a
store resolving everything, the first is listed and the second is in
`notFound`. -/
theorem blob_get_partition_witness :
    (['G', '1'] ∈ blob_get_found (fun _ => true) [['G', '1'], ['x']] ↔
      ['G', '1'] ∉ blob_get_notFound (fun _ => true) [['G', '1'], ['x']]) ∧
    (['x'] ∈ blob_get_found (fun _ => true) [['G', '1'], ['x']] ↔
      ['x'] ∉ blob_get_notFound (fun _ => true) [['G', '1'], ['x']]) :=
  ⟨(blob_get_partition (fun _ => true) [['G', '1'], ['x']]).2.2.2.2
      ['G', '1'] (by decide),
   (blob_get_partition (fun _ => true) [['G', '1'], ['x']]).2.2.2.2
      ['x'] (by decide)⟩

/-- C9: in `Blob/get`, a requested id whose first character is not `'G'`
is never handed to the backing-store guid lookup, always ends up in the
`notFound` array, and the call still replies normally. -/
theorem blob_get_non_g (resolves : BlobResolver) (ids : List Ident)
    (i : Ident) (hi : i ∈ ids) (hG : i.head? ≠ some 'G') :
    i ∉ blob_get_lookups ids ∧
    i ∈ blob_get_notFound resolves ids ∧
    jmap_blob_get false resolves ids =
      BlobGetResult.ok
        ⟨blob_get_found resolves ids, blob_get_notFound resolves ids⟩ := by
  refine ⟨?_, blob_get_notFound_mem.mpr ⟨hi, fun hc => hG hc.1⟩, rfl⟩
  intro hmem
  rw [blob_get_lookups, List.mem_filter] at hmem
  exact hG (by simpa using hmem.2)

/-- C9 witness: the id `"x"` is not looked up and lands in `notFound`. -/
theorem blob_get_non_g_witness :
    ['x'] ∉ blob_get_lookups [['x']] ∧
    ['x'] ∈ blob_get_notFound (fun _ => true) [['x']] ∧
    jmap_blob_get false (fun _ => true) [['x']] =
      BlobGetResult.ok
        ⟨blob_get_found (fun _ => true) [['x']],
         blob_get_notFound (fun _ => true) [['x']]⟩ :=
  blob_get_non_g (fun _ => true) [['x']] ['x'] (by decide) (by decide)

theorem blob_copy_loop_spec (copyblob : Ident → CopyOutcome) :
    ∀ (l : List Ident) (acc : BlobCopyReply),
    (∀ id ∈ l, copyblob id ≠ CopyOutcome.otherErr) →
    blob_copy_loop copyblob l acc =
      BlobCopyResult.reply
        { created := acc.created ++
            (l.filter (fun id => copyblob id = CopyOutcome.ok)).map
              (fun id => (id, id)),
          notCreated := acc.notCreated ++
            (l.filter (fun id => copyblob id = CopyOutcome.notFound ∨
                copyblob id = CopyOutcome.permDenied)).map
              (fun id => (id, "blobNotFound")) }
  | [], acc, _ => by simp [blob_copy_loop]
  | id :: rest, acc, h => by
      have hid := h id (List.mem_cons_self id rest)
      have hrest : ∀ j ∈ rest, copyblob j ≠ CopyOutcome.otherErr :=
        fun j hj => h j (List.mem_cons_of_mem id hj)
      rw [blob_copy_loop]
      cases hco : copyblob id with
      | otherErr => exact absurd hco hid
      | ok =>
          have ih := blob_copy_loop_spec copyblob rest
            { acc with created := acc.created ++ [(id, id)] } hrest
          rw [ih]
          simp [hco, List.filter_cons, List.append_assoc]
      | notFound =>
          have ih := blob_copy_loop_spec copyblob rest
            { acc with notCreated := acc.notCreated ++ [(id, "blobNotFound")] } hrest
          rw [ih]
          simp [hco, List.filter_cons, List.append_assoc]
      | permDenied =>
          have ih := blob_copy_loop_spec copyblob rest
            { acc with notCreated := acc.notCreated ++ [(id, "blobNotFound")] } hrest
          rw [ih]
          simp [hco, List.filter_cons, List.append_assoc]

/-- C2: in `Blob/copy`, as long as every per-blob outcome is a success
or one of the per-object (tier-3) failures the code classifies
(`IMAP_NOTFOUND`, `IMAP_PERMISSION_DENIED` — the source blob cannot be
found or read), the call is never aborted: it emits one normal reply in
which `notCreated` holds exactly the failed ids mapped to
`blobNotFound` and `created` holds exactly the successfully copied
ids. -/
theorem blob_copy_tier3 (copyblob : Ident → CopyOutcome)
    (create : List Ident)
    (h : ∀ id ∈ create, copyblob id ≠ CopyOutcome.otherErr) :
    jmap_blob_copy false CollOutcome.ok copyblob create =
      BlobCopyResult.reply
        { created :=
            (create.filter (fun id => copyblob id = CopyOutcome.ok)).map
              (fun id => (id, id)),
          notCreated :=
            (create.filter (fun id => copyblob id = CopyOutcome.notFound ∨
                copyblob id = CopyOutcome.permDenied)).map
              (fun id => (id, "blobNotFound")) } := by
  rw [jmap_blob_copy, if_neg (by simp)]
  rw [blob_copy_loop_spec copyblob create ⟨[], []⟩ h]
  simp

/-- C2 witness: the spec's scenario — three ids of which one fails to be
found — yields a normal reply with two entries in `created` and one
`blobNotFound` entry in `notCreated`. -/
theorem blob_copy_tier3_witness :
    jmap_blob_copy false CollOutcome.ok
      (fun i => if i = ['b'] then CopyOutcome.notFound else CopyOutcome.ok)
      [['a'], ['b'], ['c']] =
      BlobCopyResult.reply
        { created := [(['a'], ['a']), (['c'], ['c'])],
          notCreated := [(['b'], "blobNotFound")] } := by
  rw [blob_copy_tier3 _ _ (by decide)]
  rfl

end Jmap
